import Mathlib

/-
Verification of the invoice microservice (Rust, MiSArch) against its
natural-language specification.

Shallow embedding notes:
* The authoritative sources are `src/event/http_event_service.rs`,
  `src/graphql/model/invoice.rs`, `src/graphql/model/order.rs` and
  `src/foreign_types.rs` (the repository also carries a stale flat layout of
  the same modules; where both copies exist the embedded functions are
  identical in the parts used here).
* MongoDB collections are embedded as Lean lists of documents in insertion
  order; `insert_one` appends, `update_one` rewrites the first matching
  document, `find_one` returns the first matching document.
* BSON field presence matters for the claims (the Rust code writes and reads
  *named* BSON fields, and serde refuses documents that miss a required
  field), so stored documents track the exact field names the Rust driver
  produces: the user document keeps both the `addresses` field (written by
  `insert_one` of a `User`) and the `user_addresses` field (created only by
  the `$push` in `insert_user_address_in_mongodb`).
* `bson::Uuid`, `bson::DateTime` and `chrono::DateTime<Utc>` are external
  opaque scalars; they are embedded as wrappers of the strings their `Display`
  / `format("%Y-%m-%d %H:%M:%S")` renderings produce, which is all the
  program ever observes of them.
* Effects (the generated invoice id, the current timestamp, and whether the
  outbound Dapr publish succeeds) are passed in explicitly through `Env`.
-/

namespace InvoiceService

/-- Embedded `bson::Uuid`: an opaque identifier, observed only through
equality and its `Display` rendering. -/
structure Uuid where
  str : String
deriving DecidableEq, Repr

/-- Embedded timestamp (`bson::DateTime` / `chrono::DateTime<Utc>`), observed
only through equality and its `%Y-%m-%d %H:%M:%S` rendering. -/
structure DateTime where
  ymdHms : String
deriving DecidableEq, Repr

/-- Status of an order (`src/graphql/model/order.rs`). -/
inductive OrderStatus where
  | Pending
  | Placed
  | Rejected
deriving DecidableEq, Repr

/-- Rejection reason of an order (`src/graphql/model/order.rs`). -/
inductive RejectionReason where
  | InvalidOrderData
  | InventoryReservationFailed
deriving DecidableEq, Repr

/-- Payment authorization variant of the order event payload
(`src/event/http_event_service.rs`). -/
inductive PaymentAuthorizationEventData where
  | CVC (code : Nat)
deriving DecidableEq, Repr

/-- Order item part of the order event payload
(`src/event/http_event_service.rs`, `OrderItemEventData`). -/
structure OrderItemEventData where
  id : Uuid
  created_at : DateTime
  product_variant_id : Uuid
  product_variant_version_id : Uuid
  tax_rate_version_id : Uuid
  shopping_cart_item_id : Uuid
  count : Nat
  compensatable_amount : Nat
  shipment_method_id : Uuid
  discount_ids : List Uuid
deriving DecidableEq, Repr

/-- Order part of the discount validation succeeded event payload
(`src/event/http_event_service.rs`, `OrderEventData`).  Note that
`placed_at` is declared `chrono::DateTime<chrono::Utc>` in the Rust struct,
not `Option<_>`, while `rejection_reason`, `payment_authorization` and
`vat_number` are `Option<_>`. -/
structure OrderEventData where
  id : Uuid
  user_id : Uuid
  created_at : DateTime
  order_status : OrderStatus
  placed_at : DateTime
  rejection_reason : Option RejectionReason
  order_items : List OrderItemEventData
  shipment_address_id : Uuid
  invoice_address_id : Uuid
  compensatable_order_amount : Nat
  payment_information_id : Uuid
  payment_authorization : Option PaymentAuthorizationEventData
  vat_number : Option String
deriving DecidableEq, Repr

/-- Payload of the discount validation succeeded event
(`src/event/http_event_service.rs`). -/
structure DiscountValidationSucceededEventData where
  order : OrderEventData
deriving DecidableEq, Repr

/-- Payload of the vendor address creation event
(`src/event/http_event_service.rs`, `VendorAddressEventData`); every field is
required. -/
structure VendorAddressEventData where
  id : Uuid
  street1 : String
  street2 : String
  city : String
  postal_code : String
  country : String
  company_name : String
deriving DecidableEq, Repr

/-- Payload of the user creation event (`src/event/http_event_service.rs`,
`UserEventData`). -/
structure UserEventData where
  id : Uuid
  first_name : String
  last_name : String
deriving DecidableEq, Repr

/-- Payload of the user address creation event
(`src/event/http_event_service.rs`, `UserAddressEventData`); `company_name`
is the only optional field. -/
structure UserAddressEventData where
  id : Uuid
  street1 : String
  street2 : String
  city : String
  postal_code : String
  country : String
  company_name : Option String
  user_id : Uuid
deriving DecidableEq, Repr

/-- Payload of the user address archive event
(`src/event/http_event_service.rs`, `UserAddressArchivedEventData`). -/
structure UserAddressArchivedEventData where
  id : Uuid
  user_id : Uuid
deriving DecidableEq, Repr

/-- Dapr event envelope (`src/event/http_event_service.rs`, `Event<T>`). -/
structure Event (T : Type) where
  topic : String
  data : T

/-- Embedded user address entity (`src/foreign_types.rs`, `UserAddress`). -/
structure UserAddress where
  _id : Uuid
  street1 : String
  street2 : String
  city : String
  postal_code : String
  country : String
  company_name : String
  user_id : Uuid
deriving DecidableEq, Repr

/-- Embedded user entity (`src/foreign_types.rs`, `User`): id, names, and the
embedded address collection, serialized under the BSON field name
`addresses`. -/
structure User where
  _id : Uuid
  first_name : String
  last_name : String
  addresses : List UserAddress
deriving DecidableEq, Repr

/-- Embedded vendor address entity (`src/foreign_types.rs`,
`VendorAddress`). -/
structure VendorAddress where
  _id : Uuid
  street1 : String
  street2 : String
  city : String
  postal_code : String
  country : String
  company_name : String
deriving DecidableEq, Repr

/-- Conversion `impl From<UserEventData> for User` (`src/foreign_types.rs`):
the address collection of a freshly created user is the empty vector. -/
def User.fromEventData (value : UserEventData) : User :=
  { _id := value.id
    first_name := value.first_name
    last_name := value.last_name
    addresses := [] }

/-- Conversion `impl From<UserAddressEventData> for UserAddress`.
Modelled from the spec: `src/graphql/model/foreign_types.rs` (the current
layout's copy of the foreign types, the one compiled against
`UserAddressEventData` whose `company_name` is `Option<String>`) is absent
from the sources; the stale `src/foreign_types.rs` declares `company_name :
String` and copies the field.  A missing company name is embedded as the
empty string; no claim depends on this value. -/
def UserAddress.fromEventData (value : UserAddressEventData) : UserAddress :=
  { _id := value.id
    street1 := value.street1
    street2 := value.street2
    city := value.city
    postal_code := value.postal_code
    country := value.country
    company_name := value.company_name.getD ""
    user_id := value.user_id }

/-- Conversion `impl From<VendorAddressEventData> for VendorAddress`
(`src/foreign_types.rs`): every field is copied. -/
def VendorAddress.fromEventData (value : VendorAddressEventData) : VendorAddress :=
  { _id := value.id
    street1 := value.street1
    street2 := value.street2
    city := value.city
    postal_code := value.postal_code
    country := value.country
    company_name := value.company_name }

/-- Invoice entity (`src/graphql/model/invoice.rs`, `Invoice`). -/
structure Invoice where
  _id : Uuid
  order_id : Uuid
  issued_at : DateTime
  content : String
  user_address : UserAddress
  vendor_address : VendorAddress
  vat_number : Option String
deriving DecidableEq, Repr

/-- Outbound invoice DTO (`src/event/model/invoice_dto.rs`). -/
structure InvoiceDTO where
  order_id : Uuid
  issued_at : DateTime
  content : String
deriving DecidableEq, Repr

/-- Conversion `impl From<Invoice> for InvoiceDTO`. -/
def InvoiceDTO.fromInvoice (value : Invoice) : InvoiceDTO :=
  { order_id := value.order_id
    issued_at := value.issued_at
    content := value.content }

/-- Outbound invoice created DTO (`src/event/model/invoice_created_dto.rs`):
the original order payload plus the derived invoice DTO. -/
structure InvoiceCreatedDTO where
  order : OrderEventData
  invoice : InvoiceDTO
deriving DecidableEq, Repr

/-- Document stored in the `vendor_address` collection.  The upsert in
`create_or_update_vendor_address_in_mongodb` writes only the `_id` field, so
each remaining BSON field is tracked with explicit presence (`none` means the
field is absent from the stored document). -/
structure VendorAddressDoc where
  _id : Uuid
  street1 : Option String
  street2 : Option String
  city : Option String
  postal_code : Option String
  country : Option String
  company_name : Option String
deriving DecidableEq, Repr

/-- Serde deserialization of a stored vendor address document into
`VendorAddress`: every field of the struct is required, so a document missing
any of them fails to decode (serde derives no defaults). -/
def VendorAddressDoc.deserialize? (d : VendorAddressDoc) : Option VendorAddress :=
  match d.street1, d.street2, d.city, d.postal_code, d.country, d.company_name with
  | some s1, some s2, some c, some p, some co, some n =>
      some { _id := d._id, street1 := s1, street2 := s2, city := c,
             postal_code := p, country := co, company_name := n }
  | _, _, _, _, _, _ => none

/-- Document stored in the `user` collection.  `insert_one` of a `User`
serializes the fields `_id`, `first_name`, `last_name` and `addresses`; the
separate field `user_addresses` is created only by the `$push` update in
`insert_user_address_in_mongodb` (absence is embedded as the empty list,
which no code path distinguishes from an empty array: serde ignores the
unknown field when reading a `User` back). -/
structure UserDoc where
  _id : Uuid
  first_name : String
  last_name : String
  addresses : List UserAddress
  user_addresses : List UserAddress
deriving DecidableEq, Repr

/-- Serialization of a `User` by `insert_one`: the document carries exactly
the struct's fields; no `user_addresses` field is written. -/
def User.toDoc (user : User) : UserDoc :=
  { _id := user._id
    first_name := user.first_name
    last_name := user.last_name
    addresses := user.addresses
    user_addresses := [] }

/-- Serde deserialization of a full stored user document into `User`: the
unknown `user_addresses` field is ignored. -/
def UserDoc.deserializeUser (d : UserDoc) : User :=
  { _id := d._id
    first_name := d.first_name
    last_name := d.last_name
    addresses := d.addresses }

/-- Persistent state: the three MongoDB collections used by the service
(`invoices`, `vendor_address`, `user`), each in insertion order. -/
structure Store where
  invoices : List Invoice
  vendor_address : List VendorAddressDoc
  user : List UserDoc
deriving DecidableEq, Repr

/-- Store with all three collections empty. -/
def emptyStore : Store := { invoices := [], vendor_address := [], user := [] }

/-- Request-scoped effect inputs: the freshly generated invoice id
(`Uuid::new()`), the current timestamp (`DateTime::now()`), and whether the
outbound Dapr publish call succeeds. -/
structure Env where
  freshId : Uuid
  now : DateTime
  publishOk : Bool
deriving DecidableEq, Repr

/-- MongoDB `update_one`: rewrites the first document matching the filter,
leaving the rest of the collection unchanged; a no-op when nothing
matches. -/
def updateFirst (p : α → Bool) (f : α → α) : List α → List α
  | [] => []
  | d :: ds => if p d then f d :: ds else d :: updateFirst p f ds

/-- Embedded `insert_invoice_in_mongodb` (`src/event/http_event_service.rs`):
a plain `insert_one`, no lookup and no deduplication. -/
def insert_invoice_in_mongodb (collection : List Invoice) (invoice : Invoice) :
    List Invoice :=
  collection ++ [invoice]

/-- Embedded `create_or_update_vendor_address_in_mongodb`
(`src/event/http_event_service.rs`): `update_one` with filter
`{_id: vendor_address._id}`, update document `{$set: {_id:
vendor_address._id}}` and `upsert: true`.  When a document with that id
exists, setting `_id` to itself changes nothing; when none exists, the
upsert inserts a document built from the filter and the `$set` — that is, a
document containing only the `_id` field.  No street, city, postal code,
country or company name field is ever written. -/
def create_or_update_vendor_address_in_mongodb (collection : List VendorAddressDoc)
    (vendor_address : VendorAddress) : List VendorAddressDoc :=
  if collection.any (fun d => d._id = vendor_address._id) then
    collection
  else
    collection ++ [{ _id := vendor_address._id, street1 := none, street2 := none,
                     city := none, postal_code := none, country := none,
                     company_name := none }]

/-- Embedded `insert_user_address_in_mongodb`
(`src/event/http_event_service.rs`): `update_one` with filter
`{_id: user_address.user_id}` and update `{$push: {user_addresses:
user_address}}`.  The push appends to the BSON field named `user_addresses`
(creating it when absent) — not to the `addresses` field that the `User`
struct and the aggregation query use.  When no user document matches, the
update is a no-op. -/
def insert_user_address_in_mongodb (collection : List UserDoc)
    (user_address : UserAddress) : List UserDoc :=
  updateFirst (fun d => d._id = user_address.user_id)
    (fun d => { d with user_addresses := d.user_addresses ++ [user_address] })
    collection

/-- Embedded `remove_user_address_in_mongodb`
(`src/event/http_event_service.rs`): `update_one` with filter
`{_id: event.user_id}` and update `{$pull: {"user_addresses._id":
event.id}}`.  The `$pull` names the path `user_addresses._id`, which is not
an array field of any stored user document (the embedded address array is
the field `addresses`, and even the pushed field `user_addresses` is an
array of documents, not located at that dotted path), so the update removes
no element from any array: the matched document is left unchanged.  (On a
live server the malformed `$pull` either matches nothing or is rejected;
in both cases no address is removed.) -/
def remove_user_address_in_mongodb (collection : List UserDoc)
    (user_address_event_data : UserAddressArchivedEventData) : List UserDoc :=
  updateFirst (fun d => d._id = user_address_event_data.user_id)
    (fun d => d)
    collection

/-- Embedded `add_user_to_mongodb` (`src/event/http_event_service.rs`):
converts the event payload via `User::from` and inserts the document. -/
def add_user_to_mongodb (collection : List UserDoc)
    (user_event_data : UserEventData) : List UserDoc :=
  collection ++ [(User.fromEventData user_event_data).toDoc]

/-- Embedded `query_user_address_user` (`src/graphql/model/invoice.rs`):
`find_one` on the user collection with filter `{addresses: {$elemMatch:
{_id: address_id}}}` and positional projection `{"addresses.$": 1, "_id":
1}`.  The filter matches the first user document whose `addresses` array
contains an element with the given id; when none matches the function fails
with the `not found` error.  The projected document carries the owning
user's id and only the first matching element of `addresses`.
Modelled from the spec: `src/graphql/model/foreign_types.rs`, which fixes
how the projected document (whose name fields are excluded by the inclusion
projection) deserializes into `User`, is absent from the sources; following
the spec's words — "project only that matching address (and the owning
user's id) back" — the projection is embedded as succeeding, with the
unread name fields set to the empty string. -/
def query_user_address_user (collection : List UserDoc) (address_id : Uuid) :
    Except String User :=
  match collection.find? (fun d => d.addresses.any (fun a => a._id = address_id)) with
  | none =>
      .error ("Address of UUID: `" ++ address_id.str ++ "` not found.")
  | some d =>
      match d.addresses.find? (fun a => a._id = address_id) with
      | some a => .ok { _id := d._id, first_name := "", last_name := "", addresses := [a] }
      | none =>
          -- unreachable: the filter guarantees a matching element
          .error ("Address of UUID: `" ++ address_id.str ++ "` not found.")

/-- Embedded `project_user_to_user_address` (`src/graphql/model/invoice.rs`):
takes the first address of the projected user, failing when the address
vector is empty. -/
def project_user_to_user_address (user : User) : Except String UserAddress :=
  match user.addresses.head? with
  | some a => .ok a
  | none => .error "Projection failed, address could not be extracted from user."

/-- Embedded `query_vendor_address` (`src/graphql/model/invoice.rs`):
`find_one` with no filter returns the first stored vendor address document;
an empty collection fails with the `not set locally` error, and a document
that does not deserialize into `VendorAddress` (one written by the upsert,
which stores only `_id`) fails with the driver's deserialization error. -/
def query_vendor_address (collection : List VendorAddressDoc) :
    Except String VendorAddress :=
  match collection.head? with
  | none => .error "Vendor address is not set locally."
  | some d =>
      match d.deserialize? with
      | some v => .ok v
      | none => .error "deserialization of the stored vendor address document failed"

/-- Embedded `query_object::<User>` (`src/graphql/query.rs`): `find_one` with
filter `{_id: id}`; failure and absence both collapse to a `not found`
error. -/
def query_object_user (collection : List UserDoc) (id : Uuid) :
    Except String User :=
  match collection.find? (fun d => d._id = id) with
  | some d => .ok d.deserializeUser
  | none => .error ("User with UUID: `" ++ id.str ++ "` not found.")

/-- Fixed terms string `INVOICE_TERMS` (`src/graphql/model/invoice.rs`). -/
def INVOICE_TERMS : String :=
  "This invoice is created according the the companies terms and conditions specified on the website."

/-- Markdown table row the item loop of `build_order_item_invoice_content`
pushes for one order item: item id, product variant id, count and
compensatable amount. -/
def orderItemRow (item : OrderItemEventData) : String :=
  "| " ++ item.id.str ++ " | " ++ item.product_variant_id.str ++ " | " ++
    toString item.count ++ " | " ++ toString item.compensatable_amount ++ " |\n"

/-- Embedded `build_order_item_invoice_content`
(`src/graphql/model/invoice.rs`): starts from the two header lines and
appends one row per order item, iterating the items in payload order. -/
def build_order_item_invoice_content (value : OrderEventData) : String :=
  value.order_items.foldl (fun content item => content ++ orderItemRow item)
    ("| Item UUID | Product variant UUID | count | Compensatable amount |\n" ++
      "| --- | --- | --- | --- |\n")

/-- Specification-side closed form of the item table body: one rendered row
per order item, in payload order, used to compare the imperative loop of
`build_order_item_invoice_content` against the spec's "one row per Order
Item in input order". -/
def orderItemRowsSpec : List OrderItemEventData → String
  | [] => ""
  | item :: items => orderItemRow item ++ orderItemRowsSpec items

/-- Embedded `format!` template of `Invoice::new`
(`src/graphql/model/invoice.rs`), transcribed literally from the raw string
(including the trailing blank after `issued at: {}`). -/
def invoiceContentTemplate (vendor_address : VendorAddress) (vat_number : String)
    (user : User) (user_address : UserAddress) (invoice_id : Uuid)
    (issued_at_string : String) (order_item_invoice_overview : String)
    (compensatable_order_amount : Nat) : String :=
  "\n# Invoice\n\n### Company information:\n" ++
    (vendor_address.company_name ++
    ("\n" ++ (vendor_address.street1 ++ (", " ++ (vendor_address.street2 ++
    ("\n" ++ (vendor_address.city ++ (", " ++ (vendor_address.country ++
    ("\n\nVAT number: " ++ (vat_number ++
    ("\n\n### Customer information:\nID: " ++ (user._id.str ++
    ("\nName: " ++ (user.first_name ++ (", " ++ (user.last_name ++
    ("\nAddress:\n" ++ (user_address.company_name ++
    ("\n" ++ (user_address.street1 ++ (", " ++ (user_address.street2 ++
    ("\n" ++ (user_address.city ++ (", " ++ (user_address.country ++
    ("\n\n### Invoice ID: " ++ (invoice_id.str ++
    (", issued at: " ++ (issued_at_string ++
    (" \n\nTerms and conditions: " ++ (INVOICE_TERMS ++
    ("\n\n---\n\nPurchased items overview:\n\n" ++
    (order_item_invoice_overview ++
    ("\n\n---\n\nTotal compensatable amount: " ++
    (toString compensatable_order_amount ++
    "\n")))))))))))))))))))))))))))))))))))))

/-- Embedded `invoice_attribute_setup` (`src/graphql/model/invoice.rs`):
formats the current timestamp, renders the item table, then performs the
three aggregation lookups in sequence — user owning the invoice address
(with positional projection), singleton vendor address, full user by the
order's user id — failing as soon as one of them fails. -/
def invoice_attribute_setup (order_event_data : OrderEventData) (store : Store)
    (env : Env) :
    Except String (DateTime × String × String × UserAddress × VendorAddress × User) :=
  let issued_at := env.now
  let issued_at_string := env.now.ymdHms
  let order_item_invoice_overview := build_order_item_invoice_content order_event_data
  match query_user_address_user store.user order_event_data.invoice_address_id with
  | .error e => .error e
  | .ok user_address_user =>
    match project_user_to_user_address user_address_user with
    | .error e => .error e
    | .ok user_address =>
      match query_vendor_address store.vendor_address with
      | .error e => .error e
      | .ok vendor_address =>
        match query_object_user store.user order_event_data.user_id with
        | .error e => .error e
        | .ok user =>
            .ok (issued_at, issued_at_string, order_item_invoice_overview,
                 user_address, vendor_address, user)

/-- Embedded `Invoice::new` (`src/graphql/model/invoice.rs`): generates the
invoice id, runs the attribute setup, renders the content (the VAT line
shows the order's VAT number or the literal placeholder `-`), and returns
the structured invoice. -/
def Invoice.new (order_event_data : OrderEventData) (store : Store) (env : Env) :
    Except String Invoice :=
  let invoice_id := env.freshId
  match invoice_attribute_setup order_event_data store env with
  | .error e => .error e
  | .ok (issued_at, issued_at_string, order_item_invoice_overview,
         user_address, vendor_address, user) =>
      let vat_number := order_event_data.vat_number.getD "-"
      let content := invoiceContentTemplate vendor_address vat_number user
        user_address invoice_id issued_at_string order_item_invoice_overview
        order_event_data.compensatable_order_amount
      .ok { _id := invoice_id
            order_id := order_event_data.id
            issued_at := issued_at
            content := content
            user_address := user_address
            vendor_address := vendor_address
            vat_number := order_event_data.vat_number }

/-- HTTP status result (`axum::http::StatusCode`); the handlers only ever
produce 500 Internal Server Error. -/
structure StatusCode where
  code : Nat
deriving DecidableEq, Repr

/-- The 500 Internal Server Error status. -/
def StatusCode.internalServerError : StatusCode := { code := 500 }

/-- The 422 Unprocessable Entity status produced by the `Json` extractor when
the payload fails to decode, before the handler body runs. -/
def StatusCode.unprocessableEntity : StatusCode := { code := 422 }

/-- Dapr topic event response (`TopicEventResponse`); its default status is
`0`. -/
structure TopicEventResponse where
  status : Nat
deriving DecidableEq, Repr

/-- Default `TopicEventResponse` with status 0. -/
def TopicEventResponse.ok : TopicEventResponse := { status := 0 }

/-- Decidable equality for `Except`, needed to decide concrete handler
outcomes. -/
instance {ε α : Type} [DecidableEq ε] [DecidableEq α] : DecidableEq (Except ε α) :=
  fun a b =>
    match a, b with
    | .error e, .error f =>
        if h : e = f then isTrue (by rw [h])
        else isFalse (by intro c; cases c; exact h rfl)
    | .ok x, .ok y =>
        if h : x = y then isTrue (by rw [h])
        else isFalse (by intro c; cases c; exact h rfl)
    | .error _, .ok _ => isFalse (fun h => Except.noConfusion h)
    | .ok _, .error _ => isFalse (fun h => Except.noConfusion h)

/-- Observable outcome of one handler invocation: the HTTP-level result, the
resulting store, and the outbound events actually delivered to the Dapr
publish endpoint. -/
structure HandlerOutcome where
  response : Except StatusCode TopicEventResponse
  store : Store
  published : List InvoiceCreatedDTO
deriving DecidableEq, Repr

/-- Embedded `on_discount_order_validation_succeeded_event`
(`src/event/http_event_service.rs`): guards the topic literal, synthesizes
the invoice, converts the DTOs, inserts the invoice, then publishes the
invoice created event; a publish failure surfaces as a 500 after the insert
already happened. -/
def on_discount_order_validation_succeeded_event (env : Env)
    (event : Event DiscountValidationSucceededEventData) (store : Store) :
    HandlerOutcome :=
  if event.topic = "discount/order/validation-succeeded" then
    match Invoice.new event.data.order store env with
    | .error _ =>
        { response := .error StatusCode.internalServerError, store := store,
          published := [] }
    | .ok invoice =>
        let invoice_dto := InvoiceDTO.fromInvoice invoice
        let invoice_created_dto : InvoiceCreatedDTO :=
          { order := event.data.order, invoice := invoice_dto }
        let store2 : Store :=
          { store with invoices := insert_invoice_in_mongodb store.invoices invoice }
        if env.publishOk then
          { response := .ok TopicEventResponse.ok, store := store2,
            published := [invoice_created_dto] }
        else
          { response := .error StatusCode.internalServerError, store := store2,
            published := [] }
  else
    { response := .error StatusCode.internalServerError, store := store,
      published := [] }

/-- Embedded `on_vendor_address_created_event`
(`src/event/http_event_service.rs`): guards the topic literal, then upserts
the vendor address document. -/
def on_vendor_address_created_event (event : Event VendorAddressEventData)
    (store : Store) : HandlerOutcome :=
  if event.topic = "address/vendor-address/created" then
    let vendor_address := VendorAddress.fromEventData event.data
    { response := .ok TopicEventResponse.ok
      store := { store with vendor_address :=
        create_or_update_vendor_address_in_mongodb store.vendor_address vendor_address }
      published := [] }
  else
    { response := .error StatusCode.internalServerError, store := store,
      published := [] }

/-- Embedded `on_user_address_creation_event`
(`src/event/http_event_service.rs`): guards the topic literal, then pushes
the converted address. -/
def on_user_address_creation_event (event : Event UserAddressEventData)
    (store : Store) : HandlerOutcome :=
  if event.topic = "address/user-address/created" then
    let user_address := UserAddress.fromEventData event.data
    { response := .ok TopicEventResponse.ok
      store := { store with user :=
        insert_user_address_in_mongodb store.user user_address }
      published := [] }
  else
    { response := .error StatusCode.internalServerError, store := store,
      published := [] }

/-- Embedded `on_user_address_archived_event`
(`src/event/http_event_service.rs`): guards the topic literal, then runs the
pull update. -/
def on_user_address_archived_event (event : Event UserAddressArchivedEventData)
    (store : Store) : HandlerOutcome :=
  if event.topic = "address/user-address/archived" then
    { response := .ok TopicEventResponse.ok
      store := { store with user :=
        remove_user_address_in_mongodb store.user event.data }
      published := [] }
  else
    { response := .error StatusCode.internalServerError, store := store,
      published := [] }

/-- Embedded `on_user_created_event` (`src/event/http_event_service.rs`):
guards the topic literal, then inserts the new user. -/
def on_user_created_event (event : Event UserEventData) (store : Store) :
    HandlerOutcome :=
  if event.topic = "user/user/created" then
    { response := .ok TopicEventResponse.ok
      store := { store with user := add_user_to_mongodb store.user event.data }
      published := [] }
  else
    { response := .error StatusCode.internalServerError, store := store,
      published := [] }

/-- Raw JSON payload of an order inside a validation succeeded event, with
per-field presence: `none` means the field is missing from the payload (for
`Option`-typed struct fields, serde also decodes an explicit `null` to
`None`). -/
structure OrderEventPayload where
  id : Option Uuid
  user_id : Option Uuid
  created_at : Option DateTime
  order_status : Option OrderStatus
  placed_at : Option DateTime
  rejection_reason : Option RejectionReason
  order_items : Option (List OrderItemEventData)
  shipment_address_id : Option Uuid
  invoice_address_id : Option Uuid
  compensatable_order_amount : Option Nat
  payment_information_id : Option Uuid
  payment_authorization : Option PaymentAuthorizationEventData
  vat_number : Option String
deriving DecidableEq, Repr

/-- Serde decoder derived for `OrderEventData`
(`src/event/http_event_service.rs`): every field whose Rust type is not
`Option<_>` is required — including `placed_at`, which is declared
`chrono::DateTime<chrono::Utc>` — and a payload missing any of them is
rejected.  The three `Option<_>` fields (`rejection_reason`,
`payment_authorization`, `vat_number`) default to `None` when missing. -/
def decodeOrderEventData (p : OrderEventPayload) : Option OrderEventData :=
  match p.id, p.user_id, p.created_at, p.order_status, p.placed_at,
        p.order_items, p.shipment_address_id, p.invoice_address_id,
        p.compensatable_order_amount, p.payment_information_id with
  | some id, some user_id, some created_at, some order_status, some placed_at,
    some order_items, some shipment_address_id, some invoice_address_id,
    some compensatable_order_amount, some payment_information_id =>
      some { id := id, user_id := user_id, created_at := created_at,
             order_status := order_status, placed_at := placed_at,
             rejection_reason := p.rejection_reason,
             order_items := order_items,
             shipment_address_id := shipment_address_id,
             invoice_address_id := invoice_address_id,
             compensatable_order_amount := compensatable_order_amount,
             payment_information_id := payment_information_id,
             payment_authorization := p.payment_authorization,
             vat_number := p.vat_number }
  | _, _, _, _, _, _, _, _, _, _ => none

/-- Route-level processing of a validation succeeded request: the axum
`Json<Event<DiscountValidationSucceededEventData>>` extractor decodes the
payload before the handler body runs, so a decode failure is rejected with a
client error and neither a lookup nor a write nor a publish happens. -/
def handle_discount_order_validation_succeeded_request (env : Env)
    (topic : String) (rawOrder : OrderEventPayload) (store : Store) :
    HandlerOutcome :=
  match decodeOrderEventData rawOrder with
  | none =>
      { response := .error StatusCode.unprocessableEntity, store := store,
        published := [] }
  | some order =>
      on_discount_order_validation_succeeded_event env
        { topic := topic, data := { order := order } } store

/-
Concrete fixtures used by the claim theorems and witnesses, mirroring the
worked example of spec §8 (order `O1` of user `U1`, invoice address `A1`,
vendor `Acme`).
-/

/-- Sample user address `A1` owned by user `U1`. -/
def addrA1 : UserAddress :=
  { _id := { str := "A1" }, street1 := "Main St", street2 := "Apt 2",
    city := "Town", postal_code := "12345", country := "Wonderland",
    company_name := "", user_id := { str := "U1" } }

/-- Sample stored user document for `U1` whose `addresses` array holds
`A1`. -/
def userDocU1 : UserDoc :=
  { _id := { str := "U1" }, first_name := "Ada", last_name := "Lovelace",
    addresses := [addrA1], user_addresses := [] }

/-- Sample fully populated vendor address document (`Acme`). -/
def vendorDocFull : VendorAddressDoc :=
  { _id := { str := "V1" }, street1 := some "Vendor St", street2 := some "Block 1",
    city := some "Vendor City", postal_code := some "99999",
    country := some "Vendorland", company_name := some "Acme" }

/-- Sample order item `I1` of the spec §8 example. -/
def itemI1 : OrderItemEventData :=
  { id := { str := "I1" }, created_at := { ymdHms := "2024-01-01 00:00:00" },
    product_variant_id := { str := "P1" },
    product_variant_version_id := { str := "PV1" },
    tax_rate_version_id := { str := "T1" },
    shopping_cart_item_id := { str := "S1" }, count := 2,
    compensatable_amount := 2000, shipment_method_id := { str := "SM1" },
    discount_ids := [] }

/-- Sample order `O1` of the spec §8 example: one item, total 5000, no VAT
number. -/
def orderO1 : OrderEventData :=
  { id := { str := "O1" }, user_id := { str := "U1" },
    created_at := { ymdHms := "2024-01-01 00:00:00" },
    order_status := OrderStatus.Placed,
    placed_at := { ymdHms := "2024-01-02 00:00:00" },
    rejection_reason := none, order_items := [itemI1],
    shipment_address_id := { str := "A1" },
    invoice_address_id := { str := "A1" },
    compensatable_order_amount := 5000,
    payment_information_id := { str := "PI1" },
    payment_authorization := none, vat_number := none }

/-- Store holding user `U1` (owning `A1` in `addresses`) and the full vendor
address document. -/
def storeReady : Store :=
  { invoices := [], vendor_address := [vendorDocFull], user := [userDocU1] }

/-- Effect inputs with a succeeding publish call. -/
def envPub : Env :=
  { freshId := { str := "I-1" }, now := { ymdHms := "2024-03-03 12:00:00" },
    publishOk := true }

/-- Effect inputs with a failing publish call. -/
def envNoPub : Env :=
  { freshId := { str := "I-1" }, now := { ymdHms := "2024-03-03 12:00:00" },
    publishOk := false }

/-- Sample vendor address creation event with id `V1` and full fields. -/
def vendorEventV1 : Event VendorAddressEventData :=
  { topic := "address/vendor-address/created"
    data := { id := { str := "V1" }, street1 := "Main St", street2 := "Suite 5",
              city := "Town", postal_code := "12345", country := "Wonderland",
              company_name := "Acme" } }

/-- Second vendor address creation event carrying a different id `V2`. -/
def vendorEventV2 : Event VendorAddressEventData :=
  { topic := "address/vendor-address/created"
    data := { id := { str := "V2" }, street1 := "New St", street2 := "Suite 6",
              city := "Newtown", postal_code := "54321", country := "Wonderland",
              company_name := "Acme" } }

/-- Sample user address creation event payload: address `A1` for user `U1`. -/
def userAddressEventA1 : Event UserAddressEventData :=
  { topic := "address/user-address/created"
    data := { id := { str := "A1" }, street1 := "Main St", street2 := "Apt 2",
              city := "Town", postal_code := "12345", country := "Wonderland",
              company_name := none, user_id := { str := "U1" } } }

/-- Sample user creation event for `U1`. -/
def userEventU1 : Event UserEventData :=
  { topic := "user/user/created"
    data := { id := { str := "U1" }, first_name := "Ada", last_name := "Lovelace" } }

/-- Sample archive event asking to remove address `A1` from user `U1`. -/
def archiveEventA1 : Event UserAddressArchivedEventData :=
  { topic := "address/user-address/archived"
    data := { id := { str := "A1" }, user_id := { str := "U1" } } }

/-- Store after handling `vendorEventV1` from the empty store. -/
def storeAfterVendorV1 : Store :=
  (on_vendor_address_created_event vendorEventV1 emptyStore).store

/-- Store holding only user `U1` with address `A1` in `addresses`. -/
def storeUserWithAddr : Store :=
  { invoices := [], vendor_address := [], user := [userDocU1] }

/-- Store holding only user `U1` with address `A1` sitting in the pushed
`user_addresses` field instead. -/
def storeUserWithPushedAddr : Store :=
  { invoices := [], vendor_address := [],
    user := [{ _id := { str := "U1" }, first_name := "Ada",
               last_name := "Lovelace", addresses := [],
               user_addresses := [addrA1] }] }

/-- Store after handling `userEventU1` from the empty store. -/
def storeAfterUserU1 : Store :=
  (on_user_created_event userEventU1 emptyStore).store

/-- Store after additionally handling `userAddressEventA1`. -/
def storeAfterUserAndAddress : Store :=
  (on_user_address_creation_event userAddressEventA1 storeAfterUserU1).store

/-- Fully populated raw order payload (every field present). -/
def payloadFull : OrderEventPayload :=
  { id := some { str := "O1" }, user_id := some { str := "U1" },
    created_at := some { ymdHms := "2024-01-01 00:00:00" },
    order_status := some OrderStatus.Placed,
    placed_at := some { ymdHms := "2024-01-02 00:00:00" },
    rejection_reason := some RejectionReason.InvalidOrderData,
    order_items := some [itemI1],
    shipment_address_id := some { str := "A1" },
    invoice_address_id := some { str := "A1" },
    compensatable_order_amount := some 5000,
    payment_information_id := some { str := "PI1" },
    payment_authorization := some (PaymentAuthorizationEventData.CVC 123),
    vat_number := some "VAT-1" }

/-- Raw order payload missing only the `placedAt` field. -/
def payloadNoPlacedAt : OrderEventPayload :=
  { payloadFull with placed_at := none }

/-- Raw order payload missing the three `Option`-typed fields (`vatNumber`,
`rejectionReason`, `paymentAuthorization`). -/
def payloadNoOptionals : OrderEventPayload :=
  { payloadFull with rejection_reason := none, payment_authorization := none,
                     vat_number := none }

/-- Order event the decoder produces for `payloadNoOptionals`: the three
missing optional fields default to `None`. -/
def decodedPayloadNoOptionals : OrderEventData :=
  { id := { str := "O1" }, user_id := { str := "U1" },
    created_at := { ymdHms := "2024-01-01 00:00:00" },
    order_status := OrderStatus.Placed,
    placed_at := { ymdHms := "2024-01-02 00:00:00" },
    rejection_reason := none, order_items := [itemI1],
    shipment_address_id := { str := "A1" },
    invoice_address_id := { str := "A1" },
    compensatable_order_amount := 5000,
    payment_information_id := { str := "PI1" },
    payment_authorization := none, vat_number := none }

/-- Vendor address obtained by deserializing `vendorDocFull`. -/
def vendorAcme : VendorAddress :=
  { _id := { str := "V1" }, street1 := "Vendor St", street2 := "Block 1",
    city := "Vendor City", postal_code := "99999", country := "Vendorland",
    company_name := "Acme" }

/-- User obtained by deserializing `userDocU1`. -/
def userU1 : User :=
  { _id := { str := "U1" }, first_name := "Ada", last_name := "Lovelace",
    addresses := [addrA1] }

/-- Invoice that `Invoice::new` synthesizes for `orderO1` against
`storeReady` under the `envNoPub` effect inputs. -/
def invoiceO1 : Invoice :=
  { _id := { str := "I-1" }, order_id := { str := "O1" },
    issued_at := { ymdHms := "2024-03-03 12:00:00" },
    content := invoiceContentTemplate vendorAcme "-" userU1 addrA1
      { str := "I-1" } "2024-03-03 12:00:00"
      (build_order_item_invoice_content orderO1) 5000,
    user_address := addrA1, vendor_address := vendorAcme, vat_number := none }

end InvoiceService

namespace InvoiceService

/-- Folding the row-append loop over the items extends the accumulator by the
closed-form row concatenation. -/
theorem foldl_orderItemRow_eq (items : List OrderItemEventData) (s : String) :
    items.foldl (fun content item => content ++ orderItemRow item) s =
      s ++ orderItemRowsSpec items := by
  induction items generalizing s with
  | nil => simp [orderItemRowsSpec]
  | cons item items ih => simp [orderItemRowsSpec, ih, String.append_assoc]

/-- The imperative table builder equals the two header lines followed by one
row per order item, in payload order. -/
theorem build_order_item_invoice_content_eq (value : OrderEventData) :
    build_order_item_invoice_content value =
      "| Item UUID | Product variant UUID | count | Compensatable amount |\n" ++
        "| --- | --- | --- | --- |\n" ++ orderItemRowsSpec value.order_items := by
  simp [build_order_item_invoice_content, foldl_orderItemRow_eq, String.append_assoc]

/-- The rendered content decomposes around the VAT line: some prefix, then
the literal `VAT number: ` line showing the given value, then the customer
block. -/
theorem invoiceContentTemplate_vat_decomposition (vendor_address : VendorAddress)
    (vat_number : String) (user : User) (user_address : UserAddress)
    (invoice_id : Uuid) (issued_at_string : String)
    (order_item_invoice_overview : String) (compensatable_order_amount : Nat) :
    ∃ pre post,
      invoiceContentTemplate vendor_address vat_number user user_address
          invoice_id issued_at_string order_item_invoice_overview
          compensatable_order_amount =
        pre ++ "\n\nVAT number: " ++ vat_number ++
          "\n\n### Customer information:\nID: " ++ post := by
  refine ⟨"\n# Invoice\n\n### Company information:\n" ++
      vendor_address.company_name ++ "\n" ++ vendor_address.street1 ++ ", " ++
      vendor_address.street2 ++ "\n" ++ vendor_address.city ++ ", " ++
      vendor_address.country,
    user._id.str ++ "\nName: " ++ user.first_name ++ ", " ++ user.last_name ++
      "\nAddress:\n" ++ user_address.company_name ++ "\n" ++
      user_address.street1 ++ ", " ++ user_address.street2 ++ "\n" ++
      user_address.city ++ ", " ++ user_address.country ++
      "\n\n### Invoice ID: " ++ invoice_id.str ++ ", issued at: " ++
      issued_at_string ++ " \n\nTerms and conditions: " ++ INVOICE_TERMS ++
      "\n\n---\n\nPurchased items overview:\n\n" ++
      order_item_invoice_overview ++
      "\n\n---\n\nTotal compensatable amount: " ++
      toString compensatable_order_amount ++ "\n", ?_⟩
  simp [invoiceContentTemplate, String.append_assoc]

/-- The rendered content decomposes around its item-table tail: some prefix,
then the overview section with the given item table, then the total line
closing the document. -/
theorem invoiceContentTemplate_tail_decomposition (vendor_address : VendorAddress)
    (vat_number : String) (user : User) (user_address : UserAddress)
    (invoice_id : Uuid) (issued_at_string : String)
    (order_item_invoice_overview : String) (compensatable_order_amount : Nat) :
    ∃ pre,
      invoiceContentTemplate vendor_address vat_number user user_address
          invoice_id issued_at_string order_item_invoice_overview
          compensatable_order_amount =
        pre ++ "\n\n---\n\nPurchased items overview:\n\n" ++
          order_item_invoice_overview ++
          "\n\n---\n\nTotal compensatable amount: " ++
          toString compensatable_order_amount ++ "\n" := by
  refine ⟨"\n# Invoice\n\n### Company information:\n" ++
      vendor_address.company_name ++ "\n" ++ vendor_address.street1 ++ ", " ++
      vendor_address.street2 ++ "\n" ++ vendor_address.city ++ ", " ++
      vendor_address.country ++ "\n\nVAT number: " ++ vat_number ++
      "\n\n### Customer information:\nID: " ++ user._id.str ++ "\nName: " ++
      user.first_name ++ ", " ++ user.last_name ++ "\nAddress:\n" ++
      user_address.company_name ++ "\n" ++ user_address.street1 ++ ", " ++
      user_address.street2 ++ "\n" ++ user_address.city ++ ", " ++
      user_address.country ++ "\n\n### Invoice ID: " ++ invoice_id.str ++
      ", issued at: " ++ issued_at_string ++ " \n\nTerms and conditions: " ++
      INVOICE_TERMS, ?_⟩
  simp [invoiceContentTemplate, String.append_assoc]

/-- Claim C10: a user document constructed from a user creation event has an
empty address collection, and handling the event appends exactly that
document to the user collection, leaving everything else unchanged: right
after creation the user owns no addresses. -/
theorem C10_new_user_has_no_addresses (user_event_data : UserEventData)
    (store : Store) :
    (User.fromEventData user_event_data).addresses = [] ∧
    on_user_created_event { topic := "user/user/created", data := user_event_data }
        store =
      { response := .ok TopicEventResponse.ok
        store := { store with user := store.user ++
          [{ _id := user_event_data.id, first_name := user_event_data.first_name,
             last_name := user_event_data.last_name, addresses := [],
             user_addresses := [] }] }
        published := [] } := by
  refine ⟨rfl, ?_⟩
  simp [on_user_created_event, add_user_to_mongodb, User.fromEventData, User.toDoc]

/-- Claim C1 counterexample: after one vendor address creation event the
single stored document carries no `street1` (nor any other address field),
and a second creation event with a different id leaves two documents — the
upsert writes only `_id` and keys on the event's id, so the collection
neither stays a singleton nor reflects the latest event's fields. -/
theorem C1_vendor_upsert_stores_no_fields :
    (storeAfterVendorV1.vendor_address.map fun d => d.street1) = [none] ∧
    (storeAfterVendorV1.vendor_address.map fun d => d.company_name) = [none] ∧
    (on_vendor_address_created_event vendorEventV2 storeAfterVendorV1).store.vendor_address.length = 2 := by
  refine ⟨rfl, rfl, rfl⟩

/-- Claim C2 counterexample: handling a user address archive event naming an
address the user demonstrably holds (whether in the `addresses` array or in
the pushed `user_addresses` array) leaves the store completely unchanged —
the `$pull` on the path `user_addresses._id` never removes anything. -/
theorem C2_archive_event_removes_nothing :
    (on_user_address_archived_event archiveEventA1 storeUserWithAddr).store =
      storeUserWithAddr ∧
    ((on_user_address_archived_event archiveEventA1 storeUserWithAddr).store.user.map
      fun d => d.addresses) = [[addrA1]] ∧
    (on_user_address_archived_event archiveEventA1 storeUserWithPushedAddr).store =
      storeUserWithPushedAddr := by
  refine ⟨rfl, rfl, rfl⟩

/-- Claim C3 counterexample: after a user creation event for `U1` and a user
address creation event for address `A1` of `U1`, the pushed address sits in
the `user_addresses` field while the `addresses` array stays empty, so the
aggregator lookup by `A1` — which filters on `addresses` — fails with `not
found` instead of returning the address. -/
theorem C3_pushed_address_not_found_by_aggregator :
    (storeAfterUserAndAddress.user.map fun d => (d.addresses, d.user_addresses)) =
      [([], [addrA1])] ∧
    query_user_address_user storeAfterUserAndAddress.user { str := "A1" } =
      .error "Address of UUID: `A1` not found." := by
  refine ⟨rfl, rfl⟩

/-- Claim C4 counterexample: the decoder for the validation succeeded event
requires `placedAt` — a payload missing it is rejected before any lookup or
write — while the three genuinely `Option`-typed fields (`vatNumber`,
`rejectionReason`, `paymentAuthorization`) do default to absent when
missing. -/
theorem C4_placed_at_required_not_optional :
    decodeOrderEventData payloadNoPlacedAt = none ∧
    handle_discount_order_validation_succeeded_request envPub
        "discount/order/validation-succeeded" payloadNoPlacedAt storeReady =
      { response := .error StatusCode.unprocessableEntity, store := storeReady,
        published := [] } ∧
    ∃ o, decodeOrderEventData payloadNoOptionals = some o ∧
      o.vat_number = none ∧ o.rejection_reason = none ∧
      o.payment_authorization = none ∧ o.placed_at = { ymdHms := "2024-01-02 00:00:00" } := by
  exact ⟨rfl, rfl, ⟨decodedPayloadNoOptionals, rfl, rfl, rfl, rfl, rfl⟩⟩

/-- Claim C5: every handler rejects every envelope whose topic differs from
that handler's statically bound topic literal with an error, leaving the
store untouched and publishing nothing.  Each handler is quantified over its
own arbitrary topic, constrained only against that handler's literal, so an
envelope bearing some other handler's topic is covered too. -/
theorem C5_topic_mismatch_rejected_without_side_effects (env : Env)
    (store : Store) (t1 t2 t3 t4 t5 : String)
    (d1 : DiscountValidationSucceededEventData) (d2 : VendorAddressEventData)
    (d3 : UserAddressEventData) (d4 : UserAddressArchivedEventData)
    (d5 : UserEventData)
    (h1 : t1 ≠ "discount/order/validation-succeeded")
    (h2 : t2 ≠ "address/vendor-address/created")
    (h3 : t3 ≠ "address/user-address/created")
    (h4 : t4 ≠ "address/user-address/archived")
    (h5 : t5 ≠ "user/user/created") :
    on_discount_order_validation_succeeded_event env { topic := t1, data := d1 }
        store =
      { response := .error StatusCode.internalServerError, store := store,
        published := [] } ∧
    on_vendor_address_created_event { topic := t2, data := d2 } store =
      { response := .error StatusCode.internalServerError, store := store,
        published := [] } ∧
    on_user_address_creation_event { topic := t3, data := d3 } store =
      { response := .error StatusCode.internalServerError, store := store,
        published := [] } ∧
    on_user_address_archived_event { topic := t4, data := d4 } store =
      { response := .error StatusCode.internalServerError, store := store,
        published := [] } ∧
    on_user_created_event { topic := t5, data := d5 } store =
      { response := .error StatusCode.internalServerError, store := store,
        published := [] } := by
  refine ⟨?_, ?_, ?_, ?_, ?_⟩ <;>
    simp [on_discount_order_validation_succeeded_event,
      on_vendor_address_created_event, on_user_address_creation_event,
      on_user_address_archived_event, on_user_created_event,
      h1, h2, h3, h4, h5]

/-- Witness for claim C5, delivering to each handler an envelope bearing a
different handler's topic literal: each is rejected with no side effects. -/
theorem C5_topic_mismatch_witness :
    (("address/vendor-address/created" : String) ≠
      "discount/order/validation-succeeded") ∧
    (("user/user/created" : String) ≠ "address/vendor-address/created") ∧
    (("address/user-address/archived" : String) ≠
      "address/user-address/created") ∧
    (("address/user-address/created" : String) ≠
      "address/user-address/archived") ∧
    (("discount/order/validation-succeeded" : String) ≠ "user/user/created") ∧
    (on_discount_order_validation_succeeded_event envPub
        { topic := "address/vendor-address/created",
          data := { order := orderO1 } } storeReady =
      { response := .error StatusCode.internalServerError, store := storeReady,
        published := [] } ∧
    on_vendor_address_created_event
        { topic := "user/user/created", data := vendorEventV1.data } storeReady =
      { response := .error StatusCode.internalServerError, store := storeReady,
        published := [] } ∧
    on_user_address_creation_event
        { topic := "address/user-address/archived",
          data := userAddressEventA1.data } storeReady =
      { response := .error StatusCode.internalServerError, store := storeReady,
        published := [] } ∧
    on_user_address_archived_event
        { topic := "address/user-address/created",
          data := archiveEventA1.data } storeReady =
      { response := .error StatusCode.internalServerError, store := storeReady,
        published := [] } ∧
    on_user_created_event
        { topic := "discount/order/validation-succeeded",
          data := userEventU1.data } storeReady =
      { response := .error StatusCode.internalServerError, store := storeReady,
        published := [] }) :=
  ⟨by decide, by decide, by decide, by decide, by decide,
    C5_topic_mismatch_rejected_without_side_effects envPub storeReady
      "address/vendor-address/created" "user/user/created"
      "address/user-address/archived" "address/user-address/created"
      "discount/order/validation-succeeded" { order := orderO1 }
      vendorEventV1.data userAddressEventA1.data archiveEventA1.data
      userEventU1.data
      (by decide) (by decide) (by decide) (by decide) (by decide)⟩

/-- Claim C7: whenever invoice synthesis succeeds, the rendered content
contains the VAT line showing the order's VAT number when present and the
literal placeholder `-` when absent. -/
theorem C7_vat_line_shows_number_or_placeholder (order : OrderEventData)
    (store : Store) (env : Env) (inv : Invoice)
    (h : Invoice.new order store env = .ok inv) :
    ∃ pre post, inv.content =
      pre ++ "\n\nVAT number: " ++ order.vat_number.getD "-" ++
        "\n\n### Customer information:\nID: " ++ post := by
  cases hs : invoice_attribute_setup order store env with
  | error e => simp [Invoice.new, hs] at h
  | ok tup =>
      obtain ⟨issued_at, issued_at_string, overview, user_address,
        vendor_address, user⟩ := tup
      simp only [Invoice.new, hs] at h
      cases h
      exact invoiceContentTemplate_vat_decomposition vendor_address
        (order.vat_number.getD "-") user user_address env.freshId
        issued_at_string overview order.compensatable_order_amount

/-- Witness for claim C7 at the concrete order `O1` (no VAT number, so the
placeholder is shown). -/
theorem C7_vat_line_witness :
    Invoice.new orderO1 storeReady envNoPub = .ok invoiceO1 ∧
    ∃ pre post, invoiceO1.content =
      pre ++ "\n\nVAT number: " ++ orderO1.vat_number.getD "-" ++
        "\n\n### Customer information:\nID: " ++ post :=
  ⟨rfl, C7_vat_line_shows_number_or_placeholder orderO1 storeReady envNoPub
    invoiceO1 rfl⟩

/-- Claim C8: when any of the three aggregation lookups fails — no user owns
the order's invoice address, no vendor address document deserializes, or no
user matches the order's user id — the handler aborts with an error, the
store is unchanged (in particular no invoice is persisted) and nothing is
published. -/
theorem C8_lookup_failure_aborts_pipeline (env : Env) (store : Store)
    (order : OrderEventData)
    (h : (∃ e, query_user_address_user store.user order.invoice_address_id =
            .error e) ∨
         (∃ e, query_vendor_address store.vendor_address = .error e) ∨
         (∃ e, query_object_user store.user order.user_id = .error e)) :
    on_discount_order_validation_succeeded_event env
        { topic := "discount/order/validation-succeeded",
          data := { order := order } } store =
      { response := .error StatusCode.internalServerError, store := store,
        published := [] } := by
  have hsetup : ∃ e, invoice_attribute_setup order store env = .error e := by
    rcases h with ⟨e, he⟩ | ⟨e, he⟩ | ⟨e, he⟩
    · exact ⟨e, by simp [invoice_attribute_setup, he]⟩
    · cases h1 : query_user_address_user store.user order.invoice_address_id with
      | error e1 => exact ⟨e1, by simp [invoice_attribute_setup, h1]⟩
      | ok u1 =>
          cases h2 : project_user_to_user_address u1 with
          | error e2 => exact ⟨e2, by simp [invoice_attribute_setup, h1, h2]⟩
          | ok ua => exact ⟨e, by simp [invoice_attribute_setup, h1, h2, he]⟩
    · cases h1 : query_user_address_user store.user order.invoice_address_id with
      | error e1 => exact ⟨e1, by simp [invoice_attribute_setup, h1]⟩
      | ok u1 =>
          cases h2 : project_user_to_user_address u1 with
          | error e2 => exact ⟨e2, by simp [invoice_attribute_setup, h1, h2]⟩
          | ok ua =>
              cases h3 : query_vendor_address store.vendor_address with
              | error e3 =>
                  exact ⟨e3, by simp [invoice_attribute_setup, h1, h2, h3]⟩
              | ok va =>
                  exact ⟨e, by simp [invoice_attribute_setup, h1, h2, h3, he]⟩
  obtain ⟨e, he⟩ := hsetup
  simp [on_discount_order_validation_succeeded_event, Invoice.new, he]

/-- Witness for claim C8 at the empty store, where the very first lookup
fails with not-found. -/
theorem C8_lookup_failure_witness :
    ((∃ e, query_user_address_user emptyStore.user orderO1.invoice_address_id =
        .error e) ∨
     (∃ e, query_vendor_address emptyStore.vendor_address = .error e) ∨
     (∃ e, query_object_user emptyStore.user orderO1.user_id = .error e)) ∧
    on_discount_order_validation_succeeded_event envPub
        { topic := "discount/order/validation-succeeded",
          data := { order := orderO1 } } emptyStore =
      { response := .error StatusCode.internalServerError, store := emptyStore,
        published := [] } :=
  ⟨Or.inl ⟨_, rfl⟩,
    C8_lookup_failure_aborts_pipeline envPub emptyStore orderO1 (Or.inl ⟨_, rfl⟩)⟩

/-- Claim C9: when invoice synthesis and the insert succeed but the outbound
publish fails, the handler returns an error while the inserted invoice stays
in the collection — no compensation, rollback or retry happens, and nothing
is published. -/
theorem C9_publish_failure_keeps_invoice (env : Env) (store : Store)
    (order : OrderEventData) (inv : Invoice)
    (hnew : Invoice.new order store env = .ok inv)
    (hpub : env.publishOk = false) :
    on_discount_order_validation_succeeded_event env
        { topic := "discount/order/validation-succeeded",
          data := { order := order } } store =
      { response := .error StatusCode.internalServerError,
        store := { store with invoices := store.invoices ++ [inv] },
        published := [] } := by
  simp [on_discount_order_validation_succeeded_event, hnew, hpub,
    insert_invoice_in_mongodb]

/-- Witness for claim C9 at the concrete order `O1` against the ready store
with a failing publish call. -/
theorem C9_publish_failure_witness :
    Invoice.new orderO1 storeReady envNoPub = .ok invoiceO1 ∧
    envNoPub.publishOk = false ∧
    on_discount_order_validation_succeeded_event envNoPub
        { topic := "discount/order/validation-succeeded",
          data := { order := orderO1 } } storeReady =
      { response := .error StatusCode.internalServerError,
        store := { storeReady with invoices := storeReady.invoices ++ [invoiceO1] },
        published := [] } :=
  ⟨rfl, rfl,
    C9_publish_failure_keeps_invoice envNoPub storeReady orderO1 invoiceO1 rfl rfl⟩

/-- Claim C6: for a validation succeeded event whose three lookups resolve —
a stored user owns an address matching the order's invoice address id, the
stored vendor address document deserializes, and a user matches the order's
user id — exactly one invoice is appended to the invoice collection, its
`order_id` equals the order's id, its rendered content embeds the item table
(exactly one row per order item, in payload order, showing item id, product
variant id, count and compensatable amount) and closes with the order's
total compensatable amount. -/
theorem C6_valid_event_persists_single_invoice (env : Env) (store : Store)
    (order : OrderEventData) (du : UserDoc) (ua : UserAddress)
    (vd : VendorAddressDoc) (v : VendorAddress) (owner : UserDoc)
    (hAddrUser : store.user.find?
      (fun d => d.addresses.any (fun a => a._id = order.invoice_address_id)) =
        some du)
    (hAddrElem : du.addresses.find? (fun a => a._id = order.invoice_address_id) =
        some ua)
    (hVendorHead : store.vendor_address.head? = some vd)
    (hVendorFull : vd.deserialize? = some v)
    (hOwner : store.user.find? (fun d => d._id = order.user_id) = some owner)
    (hPub : env.publishOk = true) :
    ∃ inv,
      on_discount_order_validation_succeeded_event env
          { topic := "discount/order/validation-succeeded",
            data := { order := order } } store =
        { response := .ok TopicEventResponse.ok,
          store := { store with invoices := store.invoices ++ [inv] },
          published := [{ order := order, invoice := InvoiceDTO.fromInvoice inv }] } ∧
      inv.order_id = order.id ∧
      (∃ pre, inv.content =
        pre ++ "\n\n---\n\nPurchased items overview:\n\n" ++
          build_order_item_invoice_content order ++
          "\n\n---\n\nTotal compensatable amount: " ++
          toString order.compensatable_order_amount ++ "\n") ∧
      build_order_item_invoice_content order =
        "| Item UUID | Product variant UUID | count | Compensatable amount |\n" ++
          "| --- | --- | --- | --- |\n" ++ orderItemRowsSpec order.order_items := by
  have hq1 : query_user_address_user store.user order.invoice_address_id =
      .ok { _id := du._id, first_name := "", last_name := "", addresses := [ua] } := by
    simp [query_user_address_user, hAddrUser, hAddrElem]
  have hq2 : project_user_to_user_address
      { _id := du._id, first_name := "", last_name := "", addresses := [ua] } =
        .ok ua := by
    simp [project_user_to_user_address]
  have hq3 : query_vendor_address store.vendor_address = .ok v := by
    simp [query_vendor_address, hVendorHead, hVendorFull]
  have hq4 : query_object_user store.user order.user_id = .ok owner.deserializeUser := by
    simp [query_object_user, hOwner]
  have hsetup : invoice_attribute_setup order store env =
      .ok (env.now, env.now.ymdHms, build_order_item_invoice_content order,
           ua, v, owner.deserializeUser) := by
    simp [invoice_attribute_setup, hq1, hq2, hq3, hq4]
  refine ⟨{ _id := env.freshId, order_id := order.id, issued_at := env.now,
            content := invoiceContentTemplate v (order.vat_number.getD "-")
              owner.deserializeUser ua env.freshId env.now.ymdHms
              (build_order_item_invoice_content order)
              order.compensatable_order_amount,
            user_address := ua, vendor_address := v,
            vat_number := order.vat_number }, ?_, rfl, ?_, ?_⟩
  · simp [on_discount_order_validation_succeeded_event, Invoice.new, hsetup,
      hPub, insert_invoice_in_mongodb, InvoiceDTO.fromInvoice]
  · exact invoiceContentTemplate_tail_decomposition v (order.vat_number.getD "-")
      owner.deserializeUser ua env.freshId env.now.ymdHms
      (build_order_item_invoice_content order) order.compensatable_order_amount
  · exact build_order_item_invoice_content_eq order

/-- Witness for claim C6 at the spec §8 example: order `O1` against the
store holding user `U1` (owning address `A1`) and the `Acme` vendor
address. -/
theorem C6_valid_event_witness :
    storeReady.user.find?
      (fun d => d.addresses.any (fun a => a._id = orderO1.invoice_address_id)) =
        some userDocU1 ∧
    userDocU1.addresses.find? (fun a => a._id = orderO1.invoice_address_id) =
        some addrA1 ∧
    storeReady.vendor_address.head? = some vendorDocFull ∧
    vendorDocFull.deserialize? = some vendorAcme ∧
    storeReady.user.find? (fun d => d._id = orderO1.user_id) = some userDocU1 ∧
    envPub.publishOk = true ∧
    ∃ inv,
      on_discount_order_validation_succeeded_event envPub
          { topic := "discount/order/validation-succeeded",
            data := { order := orderO1 } } storeReady =
        { response := .ok TopicEventResponse.ok,
          store := { storeReady with invoices := storeReady.invoices ++ [inv] },
          published := [{ order := orderO1, invoice := InvoiceDTO.fromInvoice inv }] } ∧
      inv.order_id = orderO1.id ∧
      (∃ pre, inv.content =
        pre ++ "\n\n---\n\nPurchased items overview:\n\n" ++
          build_order_item_invoice_content orderO1 ++
          "\n\n---\n\nTotal compensatable amount: " ++
          toString orderO1.compensatable_order_amount ++ "\n") ∧
      build_order_item_invoice_content orderO1 =
        "| Item UUID | Product variant UUID | count | Compensatable amount |\n" ++
          "| --- | --- | --- | --- |\n" ++ orderItemRowsSpec orderO1.order_items :=
  ⟨rfl, rfl, rfl, rfl, rfl, rfl,
    C6_valid_event_persists_single_invoice envPub storeReady orderO1 userDocU1
      addrA1 vendorDocFull vendorAcme userDocU1 rfl rfl rfl rfl rfl rfl⟩

end InvoiceService
